import Mathlib

/-!
Shallow embedding of the Antares backend services (NestJS/Prisma) that the
specification describes: the andamento lifecycle update
(`AndamentosService.atualizar` and friends), the final-response reconciler
(`ProcessosService.criarRespostaFinal`), the deadline classifiers used by
`buscarTudo` / `contarAtrasados` / `contarVencendoHoje`, and the batch
operation (`AndamentosService.lote`).

Dates are modelled as epoch milliseconds (`Nat`).  JavaScript's `new Date(s)`
on a string is modelled by an abstract `parse : String → Option Nat`
parameter, `none` standing for an Invalid Date.
-/

namespace Antares

/-- Lifecycle status of an andamento (`$Enums.StatusAndamento`). -/
inductive StatusAndamento where
  | EM_ANDAMENTO
  | PRORROGADO
  | CONCLUIDO
  deriving DecidableEq, Repr

/-- Errors thrown by the services (`NotFoundException`, `BadRequestException`,
and database-layer failures surfaced as internal errors). -/
inductive SvcError where
  | notFound (msg : String)
  | badRequest (msg : String)
  | internal (msg : String)
  deriving DecidableEq, Repr

/-- JavaScript truthiness of an optional string: `undefined` and `""` are
falsy.  Used for `if (dto.campo)`-style checks on optional string fields. -/
def strTruthy : Option String → Bool
  | some s => !(s == "")
  | none => false

/-- JavaScript truthiness of a tri-state field (`undefined` / `null` /
string value): only a non-empty string is truthy. -/
def fieldTruthy : Option (Option String) → Bool
  | some (some s) => !(s == "")
  | _ => false

/-- An `andamento` row as persisted (Prisma model `Andamento`). -/
structure Andamento where
  id : String
  processo_id : String
  origem : String
  destino : String
  data_envio : Option Nat
  prazo : Option Nat
  prorrogacao : Option Nat
  resposta : Option Nat
  status : StatusAndamento
  observacao : Option String
  assunto : Option String
  usuario_id : String
  usuario_prorrogacao_id : Option String
  ativo : Bool
  deriving DecidableEq, Repr

/-- The mutable payload reaching `AndamentosService.atualizar`
(`UpdateAndamentoDto` after the ValidationPipe).  A field of type
`Option (Option String)` is tri-state: `none` = omitted (`undefined`),
`some none` = explicit `null`, `some (some v)` = value. -/
structure UpdateAndamentoDto where
  origem : Option String := none
  destino : Option String := none
  data_envio : Option (Option String) := none
  prazo : Option String := none
  observacao : Option (Option String) := none
  assunto : Option (Option String) := none
  prorrogacao : Option (Option String) := none
  resposta : Option (Option String) := none
  conclusao : Option (Option String) := none
  deriving DecidableEq, Repr

/-- The `data` object `atualizar` hands to `prisma.andamento.update`:
each `some` marks a column the update touches. -/
structure UpdateData where
  origem : Option String := none
  destino : Option String := none
  data_envio : Option (Option Nat) := none
  prazo : Option Nat := none
  observacao : Option (Option String) := none
  assunto : Option (Option String) := none
  prorrogacao : Option (Option Nat) := none
  usuario_prorrogacao_id : Option (Option String) := none
  resposta : Option (Option Nat) := none
  status : Option StatusAndamento := none
  deriving DecidableEq, Repr

/-- Lenient-input normalisation at the top of `atualizar`: a non-null
`conclusao` is copied into `resposta`; a non-null `resposta` that does not
parse as a date is moved into `observacao` (unless an explicit truthy
`observacao` was sent) and then deleted from the payload.  The service
mutates the dto in place, so every later read sees the normalised value. -/
def normalizaPayload (parse : String → Option Nat) (dto : UpdateAndamentoDto) :
    UpdateAndamentoDto :=
  let dto1 :=
    match dto.conclusao with
    | some (some v) => { dto with resposta := some (some v) }
    | _ => dto
  match dto1.resposta with
  | some (some v) =>
    if (parse v).isNone then
      let dto2 :=
        if fieldTruthy dto1.observacao then dto1
        else { dto1 with observacao := some (some v) }
      { dto2 with resposta := none }
    else dto1
  | _ => dto1

/-- True when the payload makes `atualizar` put an Invalid Date into `data`
(`new Date` on a string that does not parse); Prisma rejects the write. -/
def dataInvalida (parse : String → Option Nat) (dto : UpdateAndamentoDto) : Bool :=
  (match dto.data_envio with
   | some (some v) => !(v == "") && (parse v).isNone
   | _ => false) ||
  (match dto.prazo with
   | some v => !(v == "") && (parse v).isNone
   | _ => false) ||
  (match dto.prorrogacao with
   | some (some v) => (parse v).isNone
   | _ => false)

/-- The automatic status derivation of `atualizar`: the `prorrogacao` branch
runs first and only writes a status when the payload's `resposta` is falsy;
the `resposta` branch runs second and overrides (response has priority). -/
def statusDerivado (dto : UpdateAndamentoDto) : Option StatusAndamento :=
  let s1 : Option StatusAndamento :=
    match dto.prorrogacao with
    | none => none
    | some none =>
      if fieldTruthy dto.resposta then none else some StatusAndamento.EM_ANDAMENTO
    | some (some _) =>
      if fieldTruthy dto.resposta then none else some StatusAndamento.PRORROGADO
  match dto.resposta with
  | none => s1
  | some none => if fieldTruthy dto.prorrogacao then s1 else some StatusAndamento.EM_ANDAMENTO
  | some (some _) => some StatusAndamento.CONCLUIDO

/-- The `data` update object built by `atualizar` from an (already
normalised) payload, assuming every supplied date parses. -/
def dadosAtualizacao (parse : String → Option Nat) (dto : UpdateAndamentoDto)
    (usuario_id : String) : UpdateData :=
  { origem := if strTruthy dto.origem then dto.origem else none
    destino := if strTruthy dto.destino then dto.destino else none
    data_envio :=
      match dto.data_envio with
      | none => none
      | some (some v) => if v == "" then some none else some (parse v)
      | some none => some none
    prazo :=
      match dto.prazo with
      | some v => if v == "" then none else parse v
      | none => none
    observacao := dto.observacao
    assunto := dto.assunto
    prorrogacao :=
      match dto.prorrogacao with
      | none => none
      | some none => some none
      | some (some v) => some (parse v)
    usuario_prorrogacao_id :=
      match dto.prorrogacao with
      | none => none
      | some none => some none
      | some (some _) => some (some usuario_id)
    resposta :=
      match dto.resposta with
      | none => none
      | some none => some none
      | some (some v) => some (parse v)
    status := statusDerivado dto }

/-- Builds the update `data`, surfacing the two failure modes of that part of
`atualizar`: the explicit `BadRequestException` for a non-null `resposta`
that is not a valid date, and the database rejection of any Invalid Date. -/
def montaData (parse : String → Option Nat) (dto : UpdateAndamentoDto)
    (usuario_id : String) : Except SvcError UpdateData :=
  match dto.resposta with
  | some (some v) =>
    if (parse v).isNone then
      Except.error (SvcError.badRequest
        ("Campo `resposta` deve ser uma data válida em formato ISO 8601."))
    else if dataInvalida parse dto then
      Except.error (SvcError.internal ("Invalid Date rejeitado pelo banco."))
    else Except.ok (dadosAtualizacao parse dto usuario_id)
  | _ =>
    if dataInvalida parse dto then
      Except.error (SvcError.internal ("Invalid Date rejeitado pelo banco."))
    else Except.ok (dadosAtualizacao parse dto usuario_id)

/-- Applies an update `data` object to a stored andamento row. -/
def aplicaData (a : Andamento) (d : UpdateData) : Andamento :=
  { a with
    origem := d.origem.getD a.origem
    destino := d.destino.getD a.destino
    data_envio := d.data_envio.getD a.data_envio
    prazo := match d.prazo with | some t => some t | none => a.prazo
    observacao := d.observacao.getD a.observacao
    assunto := d.assunto.getD a.assunto
    prorrogacao := d.prorrogacao.getD a.prorrogacao
    usuario_prorrogacao_id := d.usuario_prorrogacao_id.getD a.usuario_prorrogacao_id
    resposta := d.resposta.getD a.resposta
    status := d.status.getD a.status }

/-- `AndamentosService.atualizar` restricted to the andamento row it updates:
`buscarPorId` rejects a missing or inactive row, the payload is normalised,
the `data` object is built and applied.  (When a response is being set the
method additionally backfills response fields of the owning processo inside
a transaction; that write never feeds back into the returned andamento and
is not modelled here.) -/
def atualizar (parse : String → Option Nat) (a : Andamento)
    (dto : UpdateAndamentoDto) (usuario_id : String) : Except SvcError Andamento :=
  if !a.ativo then
    Except.error (SvcError.notFound ("Andamento não encontrado ou inativo: " ++ a.id))
  else
    match montaData parse (normalizaPayload parse dto) usuario_id with
    | Except.error e => Except.error e
    | Except.ok d => Except.ok (aplicaData a d)

/-- `AndamentosService.concluir`: refuses an already concluded andamento,
otherwise delegates to `atualizar` with `resposta = new Date().toISOString()`
(the `status` it also sends is ignored by `atualizar`). -/
def concluir (parse : String → Option Nat) (nowIso : String) (a : Andamento)
    (usuario_id : String) : Except SvcError Andamento :=
  if !a.ativo then
    Except.error (SvcError.notFound ("Andamento não encontrado ou inativo: " ++ a.id))
  else if a.status == StatusAndamento.CONCLUIDO then
    Except.error (SvcError.badRequest ("Andamento já está concluído."))
  else
    atualizar parse a { resposta := some (some nowIso) } usuario_id

/-- The slice of a `processo` row that `criarRespostaFinal` reads and
writes. -/
structure Processo where
  id : String
  numero_sei : String
  origem : String
  ativo : Bool
  data_resposta_final : Option Nat
  resposta_final : Option String
  unidade_respondida_id : Option String
  deriving DecidableEq, Repr

/-- A processo together with its andamentos, the database state
`criarRespostaFinal` operates on. -/
structure ProcessoDB where
  processo : Processo
  andamentos : List Andamento
  deriving DecidableEq, Repr

/-- `CreateRespostaFinalDto`: the ValidationPipe has already enforced that
`data_resposta_final` is an ISO date string. -/
structure CreateRespostaFinalDto where
  processo_id : String
  data_resposta_final : String
  resposta_final : String
  unidade_respondida_id : String
  deriving DecidableEq, Repr

/-- The `data` of the `prisma.processo.update` issued for a final response:
all three response columns written together. -/
structure ProcessoRespostaUpdate where
  data_resposta_final : Nat
  resposta_final : String
  unidade_respondida_id : String
  deriving DecidableEq, Repr

/-- A single database write statement issued by `criarRespostaFinal`. -/
inductive WriteOp where
  | atualizaProcesso (u : ProcessoRespostaUpdate)
  | criaAndamento (a : Andamento)
  deriving DecidableEq, Repr

/-- Effect of one write statement on the database state. -/
def aplicaOp (db : ProcessoDB) : WriteOp → ProcessoDB
  | WriteOp.atualizaProcesso u =>
    { db with processo :=
      { db.processo with
        data_resposta_final := some u.data_resposta_final
        resposta_final := some u.resposta_final
        unidade_respondida_id := some u.unidade_respondida_id } }
  | WriteOp.criaAndamento a => { db with andamentos := db.andamentos ++ [a] }

/-- Effect of a sequence of transactions, each transaction an atomic group of
write statements.  Execution may stop between groups (a crash after a commit);
it cannot stop inside a group. -/
def aplicaTxns (db : ProcessoDB) (gs : List (List WriteOp)) : ProcessoDB :=
  gs.foldl (fun d g => g.foldl aplicaOp d) db

/-- `ProcessosService.criarRespostaFinal`.  Returns the database state after
the call together with the transaction script it executed (the empty script
on the idempotent short-circuits).  Validation order follows the source:
processo lookup, active flag, at-least-one-active-andamento, future-date
check against `fimDoDia` (today at 23:59:59.999); the responded unit is
always the processo's own `origem`, the caller-supplied
`unidade_respondida_id` is never read.  On the fresh path the source wraps
only the processo update in `$transaction` and creates the terminal
andamento in a separate later statement, which the returned script records
as two distinct groups. -/
def criarRespostaFinal (parse : String → Option Nat) (fimDoDia : Nat)
    (novoId : String) (db : ProcessoDB) (dto : CreateRespostaFinalDto)
    (usuario_id : String) : Except SvcError (ProcessoDB × List (List WriteOp)) :=
  if !(dto.processo_id == db.processo.id) then
    Except.error (SvcError.notFound ("Processo não encontrado."))
  else if !db.processo.ativo then
    Except.error (SvcError.badRequest ("Processo está inativo."))
  else if (db.andamentos.filter (fun a => a.ativo)).length == 0 then
    Except.error (SvcError.badRequest
      ("O processo deve ter pelo menos um andamento cadastrado antes de criar resposta final."))
  else
    match parse dto.data_resposta_final with
    | none =>
      Except.error (SvcError.badRequest
        ("Data de resposta final deve ser uma data válida no formato ISO 8601."))
    | some dataResposta =>
      if fimDoDia < dataResposta then
        Except.error (SvcError.badRequest ("A data de resposta final não pode ser futura."))
      else
        let unidadeRespondida := db.processo.origem
        if db.processo.data_resposta_final.isSome
            && db.processo.resposta_final == some dto.resposta_final
            && db.processo.data_resposta_final == some dataResposta then
          Except.ok (db, [])
        else
          match db.andamentos.find? (fun a =>
              a.ativo && a.status == StatusAndamento.CONCLUIDO
                && a.observacao == some dto.resposta_final
                && a.data_envio == some dataResposta) with
          | some _ =>
            if !db.processo.data_resposta_final.isSome
                || !(strTruthy db.processo.resposta_final) then
              let u : ProcessoRespostaUpdate :=
                ⟨dataResposta, dto.resposta_final, unidadeRespondida⟩
              Except.ok (aplicaOp db (WriteOp.atualizaProcesso u),
                [[WriteOp.atualizaProcesso u]])
            else
              Except.ok (db, [])
          | none =>
            let u : ProcessoRespostaUpdate :=
              ⟨dataResposta, dto.resposta_final, unidadeRespondida⟩
            let novoAndamento : Andamento :=
              { id := novoId
                processo_id := dto.processo_id
                origem := unidadeRespondida
                destino := unidadeRespondida
                data_envio := some dataResposta
                prazo := some dataResposta
                prorrogacao := none
                resposta := none
                status := StatusAndamento.CONCLUIDO
                observacao := some dto.resposta_final
                assunto := none
                usuario_id := usuario_id
                usuario_prorrogacao_id := none
                ativo := true }
            let gs := [[WriteOp.atualizaProcesso u], [WriteOp.criaAndamento novoAndamento]]
            Except.ok (aplicaTxns db gs, gs)

/-- The Prisma sub-filter on andamentos of the `atrasados` branch of
`buscarTudo` (identical to the one in `contarAtrasados`): active,
EM_ANDAMENTO, and either the original `prazo` already past with no
`prorrogacao`, or a `prorrogacao` already past.  `hoje` is today at
00:00:00; a `lt`/`gte` Prisma comparison never matches a NULL column. -/
def andamentoAtrasado (hoje : Nat) (a : Andamento) : Bool :=
  a.ativo && a.status == StatusAndamento.EM_ANDAMENTO &&
    (((match a.prazo with
       | some t => decide (t < hoje)
       | none => false) && a.prorrogacao == none) ||
     (match a.prorrogacao with
      | some t => decide (t < hoje)
      | none => false))

/-- The whole-processo `atrasados` filter: an active processo with at least
one andamento matching `andamentoAtrasado`. -/
def processoAtrasado (hoje : Nat) (p : ProcessoDB) : Bool :=
  p.processo.ativo && p.andamentos.any (andamentoAtrasado hoje)

/-- The Prisma sub-filter on andamentos of the `vencendoHoje` branch of
`buscarTudo` (identical to the one in `contarVencendoHoje`). -/
def andamentoVencendoHoje (hoje fimDoDia : Nat) (a : Andamento) : Bool :=
  a.ativo && a.status == StatusAndamento.EM_ANDAMENTO &&
    (((match a.prazo with
       | some t => decide (hoje ≤ t) && decide (t ≤ fimDoDia)
       | none => false) && a.prorrogacao == none) ||
     (match a.prorrogacao with
      | some t => decide (hoje ≤ t) && decide (t ≤ fimDoDia)
      | none => false))

/-- The whole-processo `vencendoHoje` filter. -/
def processoVencendoHoje (hoje fimDoDia : Nat) (p : ProcessoDB) : Bool :=
  p.processo.ativo && p.andamentos.any (andamentoVencendoHoje hoje fimDoDia)

/-- Modelled from the spec: the effective deadline of an andamento is its
`prorrogacao` when present, else its `prazo`. -/
def prazoEfetivo (a : Andamento) : Option Nat :=
  match a.prorrogacao with
  | some t => some t
  | none => a.prazo

/-- Modelled from the spec: a processo is overdue when it is active and has
at least one active, EM_ANDAMENTO andamento whose effective deadline is
strictly before the start of today. -/
def processoAtrasadoSpec (hoje : Nat) (p : ProcessoDB) : Bool :=
  p.processo.ativo && p.andamentos.any (fun a =>
    a.ativo && a.status == StatusAndamento.EM_ANDAMENTO &&
      (match prazoEfetivo a with
       | some t => decide (t < hoje)
       | none => false))

/-- `BatchAndamentoDto` as it reaches `AndamentosService.lote`: an untyped
client may put non-string entries in `ids`, so an id is either a string or
some other JSON value (kept by its `JSON.stringify` rendering). -/
inductive BatchId where
  | str (s : String)
  | naoString (repr : String)
  deriving DecidableEq, Repr

/-- Batch payload for `lote`. -/
structure BatchAndamentoDto where
  ids : List BatchId
  operacao : String
  novaDataLimite : Option String := none
  prazo : Option String := none
  deriving DecidableEq, Repr

/-- Checks the UUID shape enforced by the regex in `lote`:
`/^[0-9a-f]{8}-[0-9a-f]{4}-[0-9a-f]{4}-[0-9a-f]{4}-[0-9a-f]{12}$/i`. -/
def uuidValido (s : String) : Bool :=
  let cs := s.toList
  let isHex : Char → Bool := fun c =>
    (('0' ≤ c) && (c ≤ '9')) || (('a' ≤ c) && (c ≤ 'f')) || (('A' ≤ c) && (c ≤ 'F'))
  cs.length == 36 &&
    (List.range 36).all (fun i =>
      if i == 8 || i == 13 || i == 18 || i == 23 then cs.getD i ' ' == '-'
      else isHex (cs.getD i ' '))

/-- Processing of one batch id by `lote`: `none` means the id counted as
processed, `some msg` is the error entry pushed for it.  The three inner
operations (`remover` / `prorrogar` / `concluir`) can each fail with a
thrown error message, abstracted by `exec`; the catch block wraps that
message with the id and the operation. -/
def processaId (exec : String → String → Except String Unit) (operacao : String) :
    BatchId → Option String
  | BatchId.naoString r => some ("ID inválido (não é string): " ++ r)
  | BatchId.str id =>
    if id == "" then
      some ("ID inválido (não é string): " ++ "\"" ++ id ++ "\"")
    else if !(uuidValido id) then
      some ("ID inválido (formato UUID incorreto): " ++ id)
    else
      match exec operacao id with
      | Except.ok _ => none
      | Except.error m =>
        some ("Erro ao processar ID " ++ id ++ " na operação " ++ operacao ++ ": " ++ m)

/-- The per-id loop of `lote`: each id is handled independently, a success
increments `processados`, a failure appends its error entry. -/
def loteLoop (f : BatchId → Option String) : List BatchId → Nat × List String
  | [] => (0, [])
  | b :: bs =>
    let r := loteLoop f bs
    match f b with
    | none => (r.1 + 1, r.2)
    | some m => (r.1, m :: r.2)

/-- Result summary of `lote`. -/
structure LoteResultado where
  processados : Nat
  erros : List String
  deriving DecidableEq, Repr

/-- `AndamentosService.lote`: validates the id list, the operation name and
(for `prorrogar`) the presence of a new deadline, then processes each id
independently, counting successes and collecting one error entry per
failing id.  The requesting user id is threaded to the inner operations,
which `exec` abstracts. -/
def lote (exec : String → String → Except String Unit)
    (dto : BatchAndamentoDto) : Except SvcError LoteResultado :=
  let novaDataLimite :=
    if strTruthy dto.novaDataLimite then dto.novaDataLimite else dto.prazo
  if dto.ids.length == 0 then
    Except.error (SvcError.badRequest
      ("Array de IDs está vazio. Pelo menos um ID é necessário."))
  else if !(dto.operacao == "excluir" || dto.operacao == "prorrogar"
      || dto.operacao == "concluir") then
    Except.error (SvcError.badRequest
      ("Operação inválida: " ++ dto.operacao ++ ". Use: excluir, prorrogar ou concluir."))
  else if dto.operacao == "prorrogar" && !(strTruthy novaDataLimite) then
    Except.error (SvcError.badRequest
      ("Nova data limite é obrigatória para prorrogação."))
  else
    Except.ok
      { processados := (loteLoop (processaId exec dto.operacao) dto.ids).1
        erros := (loteLoop (processaId exec dto.operacao) dto.ids).2 }

/-- A `new Date` model that accepts no string: the updates below supply no
date field, or only invalid ones. -/
def parseNone : String → Option Nat := fun _ => none

/-- A concluded andamento with both a stored `prorrogacao` and a stored
`resposta`. -/
def andamentoC5 : Andamento :=
  { id := "a1"
    processo_id := "p1"
    origem := "UA"
    destino := "UB"
    data_envio := some 0
    prazo := some 100
    prorrogacao := some 300
    resposta := some 200
    status := StatusAndamento.CONCLUIDO
    observacao := none
    assunto := none
    usuario_id := "u1"
    usuario_prorrogacao_id := some ("u1")
    ativo := true }

/-- An ordinary active EM_ANDAMENTO andamento with no extension and no
response. -/
def andamentoBase : Andamento :=
  { id := "a2"
    processo_id := "p1"
    origem := "UA"
    destino := "UB"
    data_envio := some 0
    prazo := some 100
    prorrogacao := none
    resposta := none
    status := StatusAndamento.EM_ANDAMENTO
    observacao := none
    assunto := none
    usuario_id := "u1"
    usuario_prorrogacao_id := none
    ativo := true }

/-- C4: for every andamento update whose `resposta` is a syntactically valid
date (not overridden through the `conclusao` synonym), a successful update
leaves the andamento with status CONCLUIDO — independent of the
`prorrogacao` sent in the same update and of the stored row. -/
theorem resposta_valida_forca_concluido
    (parse : String → Option Nat) (a : Andamento) (dto : UpdateAndamentoDto)
    (usuario_id : String) (v : String) (t : Nat) (a2 : Andamento)
    (hconc : dto.conclusao = none)
    (hresp : dto.resposta = some (some v))
    (hparse : parse v = some t)
    (hok : atualizar parse a dto usuario_id = Except.ok a2) :
    a2.status = StatusAndamento.CONCLUIDO := by
  unfold atualizar at hok
  by_cases ha : a.ativo
  · simp only [ha, Bool.not_true, Bool.false_eq_true, if_false] at hok
    unfold normalizaPayload at hok
    rw [hconc] at hok
    simp only [hresp, hparse, Option.isNone_some, Bool.false_eq_true, if_false] at hok
    unfold montaData at hok
    simp only [hresp, hparse, Option.isNone_some, Bool.false_eq_true, if_false] at hok
    by_cases hdi : dataInvalida parse dto
    · simp [hdi] at hok
    · simp only [hdi, Bool.false_eq_true, if_false, Except.ok.injEq] at hok
      subst hok
      simp [aplicaData, dadosAtualizacao, statusDerivado, hresp]
  · simp [ha] at hok

/-- A `new Date` model for the C4 witness date string. -/
def parseC4 : String → Option Nat :=
  fun s => if s == "2025-01-02" then some 500 else none

/-- The concrete row the C4 witness update produces. -/
def resC4 : Andamento :=
  { andamentoC5 with resposta := some 500, status := StatusAndamento.CONCLUIDO }

/-- C4 witness: a concrete update setting `resposta` to a parsing date on a
row whose stored `prorrogacao` is set; the result is CONCLUIDO. -/
theorem resposta_valida_forca_concluido_witness :
    atualizar parseC4 andamentoC5
        { resposta := some (some ("2025-01-02")) } "u1" = Except.ok resC4 ∧
    resC4.status = StatusAndamento.CONCLUIDO :=
  ⟨rfl, resposta_valida_forca_concluido parseC4 andamentoC5
    { resposta := some (some ("2025-01-02")) } "u1" "2025-01-02" 500 resC4
    rfl rfl rfl rfl⟩

/-- C5 at the failing input: updating the stored row `andamentoC5`
(whose `prorrogacao` is set) with `resposta = null` and no `prorrogacao`
field succeeds and leaves `prorrogacao` set while the status becomes
EM_ANDAMENTO — the status branch reads only the payload, so the documented
rule "prorrogação sem conclusão ⇒ PRORROGADO" is violated. -/
theorem limpar_resposta_ignora_prorrogacao_armazenada :
    atualizar parseNone andamentoC5 { resposta := some none } "u1" =
      Except.ok { andamentoC5 with
        resposta := none
        status := StatusAndamento.EM_ANDAMENTO } ∧
    ({ andamentoC5 with
        resposta := none
        status := StatusAndamento.EM_ANDAMENTO } : Andamento).prorrogacao = some 300 := by
  exact ⟨rfl, rfl⟩

/-- C6 counterexample: an update supplying `resposta = "texto livre"` (not a
date) does not fail — it returns `ok`, with the text silently moved into
`observacao`; no validation error naming `resposta` is raised and the stored
`resposta`/status are untouched. -/
theorem resposta_invalida_nao_falha :
    atualizar parseNone andamentoBase
      { resposta := some (some ("texto livre")) } "u1" =
      Except.ok { andamentoBase with observacao := some ("texto livre") } := by
  exact rfl

/-- C6 amended: an update supplying only a non-null `resposta` that does not
parse as a date is silently reclassified — the update succeeds, the stored
`resposta` and `status` are unchanged, and the rejected string is stored as
the `observacao`. -/
theorem resposta_invalida_vira_observacao
    (parse : String → Option Nat) (a : Andamento) (usuario_id : String)
    (v : String) (ha : a.ativo = true) (hparse : parse v = none) :
    atualizar parse a { resposta := some (some v) } usuario_id =
      Except.ok { a with observacao := some v } := by
  simp [atualizar, normalizaPayload, montaData, dataInvalida, dadosAtualizacao,
    statusDerivado, aplicaData, fieldTruthy, ha, hparse]

/-- C6 amended witness: concrete instance of the reclassification. -/
theorem resposta_invalida_vira_observacao_witness :
    atualizar parseNone andamentoC5 { resposta := some (some ("segue anexo")) } "u1" =
      Except.ok { andamentoC5 with observacao := some ("segue anexo") } :=
  resposta_invalida_vira_observacao parseNone andamentoC5 "u1" "segue anexo" rfl rfl

/-- C10: `concluir` is not idempotent — on an active andamento whose status
is already CONCLUIDO it throws the `BadRequestException` and performs no
update. -/
theorem concluir_rejeita_ja_concluido
    (parse : String → Option Nat) (nowIso : String) (a : Andamento)
    (usuario_id : String) (ha : a.ativo = true)
    (hs : a.status = StatusAndamento.CONCLUIDO) :
    concluir parse nowIso a usuario_id =
      Except.error (SvcError.badRequest ("Andamento já está concluído.")) := by
  simp [concluir, ha, hs]

/-- C10 witness: a concrete already-concluded andamento. -/
theorem concluir_rejeita_ja_concluido_witness :
    concluir parseNone "2025-10-12T00:00:00.000Z" andamentoC5 "u1" =
      Except.error (SvcError.badRequest ("Andamento já está concluído.")) :=
  concluir_rejeita_ja_concluido parseNone "2025-10-12T00:00:00.000Z" andamentoC5 "u1"
    rfl rfl

/-- A valid submission (processo found and active, at least one active
andamento, date parses and is not in the future) always returns `ok`:
every branch past the validations produces a result. -/
theorem criarRespostaFinal_ok_of_valid
    (parse : String → Option Nat) (fimDoDia : Nat) (novoId : String)
    (db : ProcessoDB) (dto : CreateRespostaFinalDto) (usuario_id : String) (d : Nat)
    (hpid : dto.processo_id = db.processo.id)
    (hativo : db.processo.ativo = true)
    (hand : (db.andamentos.filter (fun a => a.ativo)).length ≠ 0)
    (hparse : parse dto.data_resposta_final = some d)
    (hnofut : d ≤ fimDoDia) :
    ∃ r, criarRespostaFinal parse fimDoDia novoId db dto usuario_id = Except.ok r := by
  unfold criarRespostaFinal
  simp only [hpid, hativo, hparse, beq_self_eq_true, Bool.not_true, Bool.false_eq_true,
    if_false, beq_iff_eq, hand, Nat.not_lt.mpr hnofut, if_true]
  split
  · exact ⟨_, rfl⟩
  · split
    · split
      · exact ⟨_, rfl⟩
      · exact ⟨_, rfl⟩
    · exact ⟨_, rfl⟩

/-- C2: the final-response operation is idempotent — when the processo
already carries exactly the submitted (date, text) response, the call
returns the current state and executes no write at all (empty transaction
script), so no second Andamento and no field change can occur. -/
theorem resposta_final_idempotente
    (parse : String → Option Nat) (fimDoDia : Nat) (novoId : String)
    (db : ProcessoDB) (dto : CreateRespostaFinalDto) (usuario_id : String) (d : Nat)
    (hpid : dto.processo_id = db.processo.id)
    (hativo : db.processo.ativo = true)
    (hand : (db.andamentos.filter (fun a => a.ativo)).length ≠ 0)
    (hparse : parse dto.data_resposta_final = some d)
    (hnofut : d ≤ fimDoDia)
    (hdata : db.processo.data_resposta_final = some d)
    (htexto : db.processo.resposta_final = some dto.resposta_final) :
    criarRespostaFinal parse fimDoDia novoId db dto usuario_id = Except.ok (db, []) := by
  unfold criarRespostaFinal
  simp [hpid, hativo, hparse, hand, Nat.not_lt.mpr hnofut, hdata, htexto]

/-- The processo used by the concrete final-response scenarios. -/
def processoBase : Processo :=
  { id := "p1"
    numero_sei := "SEI-1"
    origem := "GAB"
    ativo := true
    data_resposta_final := none
    resposta_final := none
    unidade_respondida_id := none }

/-- A database with one active EM_ANDAMENTO andamento and no response yet. -/
def dbBase : ProcessoDB :=
  { processo := processoBase, andamentos := [andamentoBase] }

/-- A `new Date` model accepting the one date string these scenarios use. -/
def parseRF : String → Option Nat :=
  fun s => if s == "2025-10-10" then some 500 else none

/-- The final-response submission used by the concrete scenarios; the caller
claims an arbitrary responded unit, distinct from the processo's origin. -/
def dtoRF : CreateRespostaFinalDto :=
  { processo_id := "p1"
    data_resposta_final := "2025-10-10"
    resposta_final := "Deferido conforme análise."
    unidade_respondida_id := "OUTRA-UNIDADE" }

/-- C2 witness: the concrete state after a successful fresh submission,
resubmitted identically, is returned unchanged with no writes. -/
theorem resposta_final_idempotente_witness :
    criarRespostaFinal parseRF 1000 "novo2"
      { dbBase with processo :=
        { processoBase with
          data_resposta_final := some 500
          resposta_final := some ("Deferido conforme análise.")
          unidade_respondida_id := some ("GAB") } }
      dtoRF "u1" =
    Except.ok
      ({ dbBase with processo :=
        { processoBase with
          data_resposta_final := some 500
          resposta_final := some ("Deferido conforme análise.")
          unidade_respondida_id := some ("GAB") } }, []) :=
  resposta_final_idempotente parseRF 1000 "novo2" _ dtoRF "u1" 500
    rfl rfl (by decide) rfl (by decide) rfl rfl

/-- C3: the caller-supplied `unidade_respondida_id` never flows into the
result — two submissions differing only in that field behave identically —
and whenever a call writes anything, the resulting stored
`unidade_respondida_id` is the processo's own `origem`. -/
theorem unidade_respondida_forcada
    (parse : String → Option Nat) (fimDoDia : Nat) (novoId : String)
    (db : ProcessoDB) (dto : CreateRespostaFinalDto) (usuario_id : String)
    (x y : String) :
    criarRespostaFinal parse fimDoDia novoId db
        { dto with unidade_respondida_id := y } usuario_id =
      criarRespostaFinal parse fimDoDia novoId db
        { dto with unidade_respondida_id := x } usuario_id ∧
    (∀ db2 gs,
      criarRespostaFinal parse fimDoDia novoId db
        { dto with unidade_respondida_id := x } usuario_id = Except.ok (db2, gs) →
      gs ≠ [] →
      db2.processo.unidade_respondida_id = some db.processo.origem) := by
  constructor
  · cases dto
    rfl
  · intro db2 gs hok hne
    unfold criarRespostaFinal at hok
    split at hok
    · exact absurd hok (by simp)
    · split at hok
      · exact absurd hok (by simp)
      · split at hok
        · exact absurd hok (by simp)
        · split at hok
          · exact absurd hok (by simp)
          · split at hok
            · exact absurd hok (by simp)
            · split at hok
              · cases hok
                exact absurd rfl hne
              · split at hok
                · split at hok
                  · cases hok
                    simp [aplicaOp]
                  · cases hok
                    exact absurd rfl hne
                · cases hok
                  simp [aplicaTxns, aplicaOp]

/-- C3 witness: the fresh path at concrete inputs — swapping the claimed
unit changes nothing, and the stored unit is the processo origin `GAB`,
not the claimed `OUTRA-UNIDADE`. -/
theorem unidade_respondida_forcada_witness :
    criarRespostaFinal parseRF 1000 "novo3" dbBase
        { dtoRF with unidade_respondida_id := "QUALQUER" } "u1" =
      criarRespostaFinal parseRF 1000 "novo3" dbBase
        { dtoRF with unidade_respondida_id := "OUTRA-UNIDADE" } "u1" ∧
    (aplicaTxns dbBase
        [[WriteOp.atualizaProcesso ⟨500, "Deferido conforme análise.", "GAB"⟩],
         [WriteOp.criaAndamento
           { id := "novo3"
             processo_id := "p1"
             origem := "GAB"
             destino := "GAB"
             data_envio := some 500
             prazo := some 500
             prorrogacao := none
             resposta := none
             status := StatusAndamento.CONCLUIDO
             observacao := some ("Deferido conforme análise.")
             assunto := none
             usuario_id := "u1"
             usuario_prorrogacao_id := none
             ativo := true }]]).processo.unidade_respondida_id =
      some dbBase.processo.origem :=
  (let h := unidade_respondida_forcada parseRF 1000 "novo3" dbBase dtoRF "u1"
    "OUTRA-UNIDADE" "QUALQUER"
   ⟨h.1, h.2 _ _ rfl (by decide)⟩)

/-- C8: with `fimDoDia` = today at 23:59:59.999 (`dayStart + 86399999` ms),
a response dated exactly at that instant passes the future-date check and
the call succeeds, while a response dated one millisecond later — tomorrow
at 00:00:00.000 — is rejected with the future-date `BadRequestException`;
the rejection happens before any write, so the processo is unchanged. -/
theorem resposta_final_limite_fim_do_dia
    (parse : String → Option Nat) (novoId : String) (db : ProcessoDB)
    (dto1 dto2 : CreateRespostaFinalDto) (usuario_id : String) (dayStart : Nat)
    (hp1 : dto1.processo_id = db.processo.id)
    (hp2 : dto2.processo_id = db.processo.id)
    (hativo : db.processo.ativo = true)
    (hand : (db.andamentos.filter (fun a => a.ativo)).length ≠ 0)
    (hd1 : parse dto1.data_resposta_final = some (dayStart + 86399999))
    (hd2 : parse dto2.data_resposta_final = some (dayStart + 86400000)) :
    (∃ r, criarRespostaFinal parse (dayStart + 86399999) novoId db dto1 usuario_id =
      Except.ok r) ∧
    criarRespostaFinal parse (dayStart + 86399999) novoId db dto2 usuario_id =
      Except.error (SvcError.badRequest ("A data de resposta final não pode ser futura.")) := by
  constructor
  · exact criarRespostaFinal_ok_of_valid parse (dayStart + 86399999) novoId db dto1
      usuario_id (dayStart + 86399999) hp1 hativo hand hd1 (Nat.le_refl _)
  · unfold criarRespostaFinal
    simp [hp2, hativo, hand, hd2]

/-- A `new Date` model for the C8 witness: the two date strings one
millisecond apart around midnight, with `dayStart = 1000000`. -/
def parseC8 : String → Option Nat :=
  fun s =>
    if s == "hoje-23-59-59-999" then some 87399999
    else if s == "amanha-00-00-00" then some 87400000
    else none

/-- C8 witness: concrete end-of-day acceptance and first-instant-of-tomorrow
rejection. -/
theorem resposta_final_limite_fim_do_dia_witness :
    (∃ r, criarRespostaFinal parseC8 87399999 "novo4" dbBase
      { dtoRF with data_resposta_final := "hoje-23-59-59-999" } "u1" = Except.ok r) ∧
    criarRespostaFinal parseC8 87399999 "novo4" dbBase
      { dtoRF with data_resposta_final := "amanha-00-00-00" } "u1" =
      Except.error (SvcError.badRequest ("A data de resposta final não pode ser futura.")) :=
  resposta_final_limite_fim_do_dia parseC8 "novo4" dbBase
    { dtoRF with data_resposta_final := "hoje-23-59-59-999" }
    { dtoRF with data_resposta_final := "amanha-00-00-00" } "u1" 1000000
    rfl rfl rfl (by decide) (by decide) (by decide)

/-- The processo update statement of the concrete fresh submission. -/
def updRF : ProcessoRespostaUpdate :=
  ⟨500, "Deferido conforme análise.", "GAB"⟩

/-- The terminal andamento created by the concrete fresh submission. -/
def andamentoRF : Andamento :=
  { id := "novo5"
    processo_id := "p1"
    origem := "GAB"
    destino := "GAB"
    data_envio := some 500
    prazo := some 500
    prorrogacao := none
    resposta := none
    status := StatusAndamento.CONCLUIDO
    observacao := some ("Deferido conforme análise.")
    assunto := none
    usuario_id := "u1"
    usuario_prorrogacao_id := none
    ativo := true }

/-- The transaction script the fresh path actually executes: the processo
update alone inside the `$transaction`, the andamento creation as a
separate, later statement. -/
def scriptRF : List (List WriteOp) :=
  [[WriteOp.atualizaProcesso updRF], [WriteOp.criaAndamento andamentoRF]]

/-- C1 at the failing input: on a fresh submission the processo response
update and the terminal-andamento creation are issued as two separate
atomic groups, not one — and the state reachable between the two commits
has the processo marked responded while no active CONCLUIDO andamento
exists, exactly the inconsistency the single-transaction requirement is
meant to exclude. -/
theorem resposta_final_fora_da_transacao :
    criarRespostaFinal parseRF 1000 "novo5" dbBase dtoRF "u1" =
      Except.ok (aplicaTxns dbBase scriptRF, scriptRF) ∧
    scriptRF = [[WriteOp.atualizaProcesso updRF], [WriteOp.criaAndamento andamentoRF]] ∧
    (aplicaTxns dbBase [[WriteOp.atualizaProcesso updRF]]).processo.data_resposta_final =
      some 500 ∧
    ((aplicaTxns dbBase [[WriteOp.atualizaProcesso updRF]]).andamentos.filter
      (fun a => a.ativo && a.status == StatusAndamento.CONCLUIDO)).length = 0 := by
  refine ⟨rfl, rfl, rfl, rfl⟩

/-- The per-andamento `atrasados` filter coincides with "effective deadline
(`prorrogacao` if present, else `prazo`) strictly before today". -/
theorem andamentoAtrasado_eq_prazoEfetivo (hoje : Nat) (a : Andamento) :
    andamentoAtrasado hoje a =
      (a.ativo && a.status == StatusAndamento.EM_ANDAMENTO &&
        (match prazoEfetivo a with
         | some t => decide (t < hoje)
         | none => false)) := by
  unfold andamentoAtrasado prazoEfetivo
  cases hp : a.prorrogacao <;> cases hz : a.prazo <;> simp

/-- C7: a processo is classified overdue exactly when it is active and has
an active EM_ANDAMENTO andamento whose effective deadline is strictly
before the start of today; and a processo all of whose active andamentos
are PRORROGADO is in neither the overdue nor the due-today set (the status
filter excludes it from both). -/
theorem atrasado_sse_prazo_efetivo_vencido (hoje fimDoDia : Nat) (p : ProcessoDB) :
    processoAtrasado hoje p = processoAtrasadoSpec hoje p ∧
    ((∀ a ∈ p.andamentos, a.ativo = true → a.status = StatusAndamento.PRORROGADO) →
      processoAtrasado hoje p = false ∧
      processoVencendoHoje hoje fimDoDia p = false) := by
  constructor
  · unfold processoAtrasado processoAtrasadoSpec
    have hfun : andamentoAtrasado hoje = (fun a : Andamento =>
        a.ativo && a.status == StatusAndamento.EM_ANDAMENTO &&
          (match prazoEfetivo a with
           | some t => decide (t < hoje)
           | none => false)) :=
      funext (fun a => andamentoAtrasado_eq_prazoEfetivo hoje a)
    rw [hfun]
  · intro h
    constructor
    · unfold processoAtrasado
      have : p.andamentos.any (andamentoAtrasado hoje) = false := by
        rw [List.any_eq_false]
        intro a ha
        cases hat : a.ativo with
        | false => simp [andamentoAtrasado, hat]
        | true => simp [andamentoAtrasado, hat, h a ha hat]
      simp [this]
    · unfold processoVencendoHoje
      have : p.andamentos.any (andamentoVencendoHoje hoje fimDoDia) = false := by
        rw [List.any_eq_false]
        intro a ha
        cases hat : a.ativo with
        | false => simp [andamentoVencendoHoje, hat]
        | true => simp [andamentoVencendoHoje, hat, h a ha hat]
      simp [this]

/-- The PRORROGADO-only processo of the spec scenario: `prazo` yesterday,
`prorrogacao` tomorrow, with today = 500 and end of day = 999. -/
def dbPRORROGADO : ProcessoDB :=
  { processo := processoBase
    andamentos :=
      [{ andamentoBase with
          prazo := some 100
          prorrogacao := some 1500
          status := StatusAndamento.PRORROGADO
          usuario_prorrogacao_id := some ("u1") }] }

/-- C7 witness: at the concrete scenario the overdue filter agrees with the
effective-deadline reading, and the PRORROGADO-only processo is in neither
set. -/
theorem atrasado_sse_prazo_efetivo_vencido_witness :
    processoAtrasado 500 dbPRORROGADO = processoAtrasadoSpec 500 dbPRORROGADO ∧
    (processoAtrasado 500 dbPRORROGADO = false ∧
      processoVencendoHoje 500 999 dbPRORROGADO = false) :=
  ⟨(atrasado_sse_prazo_efetivo_vencido 500 999 dbPRORROGADO).1,
    (atrasado_sse_prazo_efetivo_vencido 500 999 dbPRORROGADO).2 (by decide)⟩

/-- The closed form of the per-id loop of `lote`: the success count is the
number of ids whose processing returns no error, and the error list keeps
exactly one entry per failing id, in order. -/
theorem loteLoop_spec (f : BatchId → Option String) (l : List BatchId) :
    loteLoop f l = ((l.filter (fun b => (f b).isNone)).length, l.filterMap f) := by
  induction l with
  | nil => rfl
  | cons b bs ih =>
    unfold loteLoop
    rw [ih]
    cases hf : f b <;> simp [List.filter_cons, List.filterMap_cons, hf]

/-- The readable text of a batch id (a string id itself, a non-string value
its `JSON.stringify` rendering). -/
def idTexto : BatchId → String
  | BatchId.str s => s
  | BatchId.naoString r => r

/-- Every error entry produced for a batch id embeds that id's text. -/
theorem processaId_menciona_id (exec : String → String → Except String Unit)
    (operacao : String) (b : BatchId) (m : String)
    (hm : processaId exec operacao b = some m) :
    ∃ pre post, m = pre ++ idTexto b ++ post := by
  cases b with
  | naoString r =>
    simp only [processaId, Option.some.injEq] at hm
    exact ⟨"ID inválido (não é string): ", "", by simp [idTexto, hm]⟩
  | str s =>
    simp only [processaId] at hm
    split at hm
    · cases hm
      exact ⟨"ID inválido (não é string): \"", "\"", by simp [idTexto]⟩
    · split at hm
      · cases hm
        exact ⟨"ID inválido (formato UUID incorreto): ", "", by simp [idTexto, String.append_assoc]⟩
      · cases hex : exec operacao s with
        | ok u =>
          rw [hex] at hm
          simp at hm
        | error e =>
          rw [hex] at hm
          cases hm
          exact ⟨"Erro ao processar ID ", " na operação " ++ operacao ++ ": " ++ e,
            by simp [idTexto, String.append_assoc]⟩

/-- C9: with a non-empty id list, a valid operation name and (for extension)
a new deadline present, `lote` succeeds and returns a partial-success
summary: the ids are processed independently, `processados` counts the ids
that went through, and `erros` holds exactly one entry per failing id, each
entry embedding the failing id's text. -/
theorem lote_processa_ids_independentemente
    (exec : String → String → Except String Unit) (dto : BatchAndamentoDto)
    (hids : dto.ids ≠ [])
    (hop : dto.operacao = "excluir" ∨ dto.operacao = "prorrogar"
      ∨ dto.operacao = "concluir")
    (hnd : dto.operacao = "prorrogar" →
      strTruthy (if strTruthy dto.novaDataLimite then dto.novaDataLimite
        else dto.prazo) = true) :
    lote exec dto = Except.ok
      { processados :=
          (dto.ids.filter (fun b => (processaId exec dto.operacao b).isNone)).length
        erros := dto.ids.filterMap (processaId exec dto.operacao) } ∧
    (∀ b ∈ dto.ids, ∀ m, processaId exec dto.operacao b = some m →
      ∃ pre post, m = pre ++ idTexto b ++ post) := by
  constructor
  · unfold lote
    have h0 : (dto.ids.length == 0) = false := by
      simp only [beq_eq_false_iff_ne, ne_eq, List.length_eq_zero]
      exact hids
    rw [h0]
    have h1 : (dto.operacao == "excluir" || dto.operacao == "prorrogar"
        || dto.operacao == "concluir") = true := by
      rcases hop with h | h | h <;> simp [h]
    rw [h1]
    have h2 : (dto.operacao == "prorrogar"
        && !(strTruthy (if strTruthy dto.novaDataLimite then dto.novaDataLimite
          else dto.prazo))) = false := by
      cases hpr : dto.operacao == "prorrogar" with
      | false => simp
      | true => simp [hnd (by simpa using hpr)]
    simp only [Bool.not_true, Bool.false_eq_true, if_false, h2,
      loteLoop_spec (processaId exec dto.operacao) dto.ids]
  · intro b _ m hm
    exact processaId_menciona_id exec dto.operacao b m hm

/-- An inner-operation oracle that always succeeds. -/
def execOk : String → String → Except String Unit := fun _ _ => Except.ok ()

/-- The spec scenario batch: one well-formed UUID and one malformed id. -/
def dtoLote : BatchAndamentoDto :=
  { ids := [BatchId.str ("1b671a64-40d5-491e-99b0-da01ff1f3341"),
            BatchId.str ("malformado")]
    operacao := "excluir" }

/-- C9 witness: the concrete scenario returns processed = 1 and a single
error entry naming the malformed id. -/
theorem lote_processa_ids_independentemente_witness :
    lote execOk dtoLote =
      Except.ok
        { processados := 1
          erros := ["ID inválido (formato UUID incorreto): malformado"] } := by
  have h := (lote_processa_ids_independentemente execOk dtoLote (by decide)
    (Or.inl rfl) (by decide)).1
  rw [h]
  rfl

end Antares
